import Mathlib

/-!
Verification of the Position Lifecycle & Order Execution Engine of a
single-asset trading bot. The definitions below are shallow embeddings of
the JavaScript sources:

  * src/core/SignalProcessor.js  — price buffer, EMA/SMA, crossover signal
  * src/core/RiskManager.js      — exit conditions, daily risk limits
  * src/core/TradeExecutor.js    — exchange-filter quantization, buy/sell
  * src/services/StateManager.js — persisted-state load with day rollover
  * src/utils/ErrorHandler.js    — critical-error handling
  * src/core/BinanceTradingBot.js — processNewPrice orchestration

Machine numbers are modelled as exact rationals; JavaScript property
accesses that can yield undefined are modelled with Option, and a thrown
TypeError is modelled as the surrounding catch handler being reached.
-/

namespace TradingBot

/-- Trading signal emitted by the signal processor (strings BUY and SELL in
the source; a null return is modelled as none). -/
inductive Signal
  | BUY
  | SELL
  deriving DecidableEq, Repr

/-- Exit reasons returned by RiskManager.checkExitConditions (the reason
field of the returned object; a null return is modelled as none). -/
inductive ExitReason
  | STOP_LOSS
  | TAKE_PROFIT
  | TRAILING_STOP
  deriving DecidableEq, Repr

/-! ## SignalProcessor (src/core/SignalProcessor.js) -/

/-- Mutable fields of the SignalProcessor instance: the configured window
sizes and the three arrays prices, shortMA, longMA. -/
structure SignalProcessorState where
  shortMASize : ℕ
  longMASize : ℕ
  prices : List ℚ
  shortMA : List ℚ
  longMA : List ℚ
  deriving DecidableEq, Repr

/-- SignalProcessor.calculateEMA (lines 100-120). The guard returns 0 when
data.length < period. After the guard, the branch condition
this.prices.length >= period always holds (both call sites pass
this.prices as data), so the seed assigned at line 105 (data[0]) is
always overwritten at line 113 by the simple average of the LAST period
values (data.slice(-period)). The loop at lines 116-118 then applies the
EMA recurrence to data[1] .. data[data.length-1]. -/
def calculateEMA (data : List ℚ) (period : ℕ) : ℚ :=
  if data.length < period then 0
  else
    let k : ℚ := 2 / ((period : ℚ) + 1)
    let seed : ℚ := (data.drop (data.length - period)).foldl (fun sum val => sum + val) 0 / (period : ℚ)
    (data.drop 1).foldl (fun ema p => p * k + ema * (1 - k)) seed

/-- SignalProcessor.calculateSMA (lines 128-135): simple average of the
last period values, 0 when there are fewer than period values. -/
def calculateSMA (data : List ℚ) (period : ℕ) : ℚ :=
  if data.length < period then 0
  else (data.drop (data.length - period)).foldl (fun acc val => acc + val) 0 / (period : ℚ)

/-- SignalProcessor.calculateMovingAverages (lines 71-92): when fewer than
longMASize prices are buffered both MA arrays are reset to empty;
otherwise one EMA value per window is appended and each MA array is
trimmed (shift) once it exceeds twice its window size. -/
def calculateMovingAverages (s : SignalProcessorState) : SignalProcessorState :=
  if s.prices.length < s.longMASize then
    { s with shortMA := [], longMA := [] }
  else
    let shortMA := s.shortMA ++ [calculateEMA s.prices s.shortMASize]
    let shortMA := if shortMA.length > s.shortMASize * 2 then shortMA.drop 1 else shortMA
    let longMA := s.longMA ++ [calculateEMA s.prices s.longMASize]
    let longMA := if longMA.length > s.longMASize * 2 then longMA.drop 1 else longMA
    { s with shortMA := shortMA, longMA := longMA }

/-- SignalProcessor.checkSignal (lines 141-162): needs at least two values
in each MA array, then compares the last two values of each for a
crossover. Out-of-range reads cannot occur because of the length guard;
getD with default 0 models the guarded indexing. -/
def checkSignal (s : SignalProcessorState) : Option Signal :=
  if s.shortMA.length < 2 ∨ s.longMA.length < 2 then none
  else
    let currentShortMA := s.shortMA.getD (s.shortMA.length - 1) 0
    let previousShortMA := s.shortMA.getD (s.shortMA.length - 2) 0
    let currentLongMA := s.longMA.getD (s.longMA.length - 1) 0
    let previousLongMA := s.longMA.getD (s.longMA.length - 2) 0
    if previousShortMA ≤ previousLongMA ∧ currentShortMA > currentLongMA then some Signal.BUY
    else if previousShortMA ≥ previousLongMA ∧ currentShortMA < currentLongMA then some Signal.SELL
    else none

/-- SignalProcessor.processPrice (lines 53-65): push the new price, shift
the oldest price once the buffer exceeds 2 * longMASize, recompute the
moving averages and return the signal. -/
def processPrice (s : SignalProcessorState) (newPrice : ℚ) : SignalProcessorState × Option Signal :=
  let prices := s.prices ++ [newPrice]
  let prices := if prices.length > s.longMASize * 2 then prices.drop 1 else prices
  let s := calculateMovingAverages { s with prices := prices }
  (s, checkSignal s)

/-- A SignalProcessor as constructed (lines 13-16): empty prices and MA
arrays. -/
def initialSignalProcessorState (shortMASize longMASize : ℕ) : SignalProcessorState :=
  { shortMASize := shortMASize, longMASize := longMASize, prices := [], shortMA := [], longMA := [] }

/-- Feeding a sequence of prices one at a time through processPrice,
collecting the emitted signals in order. -/
def feedPrices (s : SignalProcessorState) (ps : List ℚ) : SignalProcessorState × List (Option Signal) :=
  match ps with
  | [] => (s, [])
  | p :: rest =>
    let step := processPrice s p
    let restOut := feedPrices step.1 rest
    (restOut.1, step.2 :: restOut.2)

/-! ## RiskManager (src/core/RiskManager.js) -/

/-- RiskManager.checkExitConditions (lines 327-356). The position object
contributes only its holding flag; entry price, highest price and the
three configured percentages are passed separately, exactly as in the
source. stopLossPercentage, takeProfitPercentage and
trailingStopPercentage are the positive configured fractions. -/
def checkExitConditions (holding : Bool) (entryPrice highestPrice currentPrice stopLossPercentage takeProfitPercentage trailingStopPercentage : ℚ) : Option ExitReason :=
  if ¬holding then none
  else
    let currentProfitLossPercentage := (currentPrice - entryPrice) / entryPrice
    if currentProfitLossPercentage ≤ -stopLossPercentage then some ExitReason.STOP_LOSS
    else if currentProfitLossPercentage ≥ takeProfitPercentage then some ExitReason.TAKE_PROFIT
    else
      let trailingStopPrice := highestPrice * (1 - trailingStopPercentage)
      if currentPrice ≤ trailingStopPrice ∧ highestPrice > entryPrice then some ExitReason.TRAILING_STOP
      else none

/-- The exit rule exactly as the specification words it, for comparison
with checkExitConditions: the stop-loss threshold is given directly as a
configured negative number, evaluation order STOP_LOSS, TAKE_PROFIT,
TRAILING_STOP with first match winning. -/
def checkExitSpec (holding : Bool) (entryPrice highestPrice currentPrice stopLossThreshold takeProfitThreshold trailingStopPct : ℚ) : Option ExitReason :=
  if holding = false then none
  else
    let pnlPct := (currentPrice - entryPrice) / entryPrice
    if pnlPct ≤ stopLossThreshold then some ExitReason.STOP_LOSS
    else if pnlPct ≥ takeProfitThreshold then some ExitReason.TAKE_PROFIT
    else if highestPrice > entryPrice ∧ currentPrice ≤ highestPrice * (1 - trailingStopPct) then some ExitReason.TRAILING_STOP
    else none

/-- Daily statistics as held in memory on the bot instance and persisted
by the StateManager. The start timestamp is modelled by its calendar
projection (the fields read by getDate, getMonth, getFullYear), which is
all the day-rollover logic inspects; archived entries record the calendar
day in place of the ISO date string. -/
structure CalDate where
  year : Int
  month : ℕ
  day : ℕ
  deriving DecidableEq, Repr

structure DailyStats where
  trades : ℕ
  profit : ℚ
  startTime : CalDate
  dailyProfits : List (CalDate × ℚ)
  deriving DecidableEq, Repr

/-- RiskManager.checkDailyRiskLimits (lines 291-314), returning the
canTrade flag: trading is denied once the day's loss reaches the
configured fraction of the base capital, or once the day's trade count
reaches the maximum. -/
def checkDailyRiskLimits (maxDailyLossPercentage : ℚ) (maxDailyTrades : ℕ) (baseCapitalForDailyLoss : ℚ) (dailyStats : DailyStats) : Bool :=
  if dailyStats.profit < 0 ∧ |dailyStats.profit| ≥ baseCapitalForDailyLoss * maxDailyLossPercentage then false
  else if dailyStats.trades ≥ maxDailyTrades then false
  else true

/-! ## TradeExecutor (src/core/TradeExecutor.js) -/

/-- The filter objects of the exchange symbolInfo, one constructor per
filterType string, each carrying the field the executor reads. -/
inductive ExchangeFilter
  | priceFilter (tickSize : ℚ)
  | lotSize (stepSize : ℚ)
  | minNotionalF (minNotional : ℚ)
  deriving DecidableEq, Repr

inductive FilterType
  | PRICE_FILTER
  | LOT_SIZE
  | MIN_NOTIONAL
  deriving DecidableEq, Repr

def filterTypeOf : ExchangeFilter → FilterType
  | ExchangeFilter.priceFilter _ => FilterType.PRICE_FILTER
  | ExchangeFilter.lotSize _ => FilterType.LOT_SIZE
  | ExchangeFilter.minNotionalF _ => FilterType.MIN_NOTIONAL

/-- The slice of symbolInfo the executor uses: its filters array. -/
structure SymbolInfo where
  filters : List ExchangeFilter
  deriving DecidableEq, Repr

/-- this.symbolInfo.filters.find(f => f.filterType === type). -/
def findFilter (info : SymbolInfo) (t : FilterType) : Option ExchangeFilter :=
  info.filters.find? (fun f => filterTypeOf f == t)

/-- parseFloat(x.toFixed(precision)): rounding to precision decimal
digits. Number.prototype.toFixed rounds to the nearest representable
decimal; for the nonnegative values quantized here this is
floor(x * 10 ^ precision + 1 / 2) / 10 ^ precision. -/
def toFixedVal (precision : ℕ) (x : ℚ) : ℚ :=
  (⌊x * 10 ^ precision + 1 / 2⌋ : ℚ) / 10 ^ precision

/-- TradeExecutor.applyExchangeFilter (lines 38-66). A missing symbolInfo
or a missing filter returns the value unchanged; PRICE_FILTER and
LOT_SIZE floor the value to the tick and step size respectively and round
the product to the configured display precision; MIN_NOTIONAL (and the
switch default) return the value unchanged. Because find matches on the
filterType, the found filter constructor coincides with the requested
type, so matching on the found filter reproduces the switch on type. -/
def applyExchangeFilter (symbolInfo : Option SymbolInfo) (pricePrecision quantityPrecision : ℕ) (t : FilterType) (value : ℚ) : ℚ :=
  match symbolInfo with
  | none => value
  | some info =>
    match findFilter info t with
    | none => value
    | some (ExchangeFilter.priceFilter tickSize) =>
        toFixedVal pricePrecision ((⌊value / tickSize⌋ : ℚ) * tickSize)
    | some (ExchangeFilter.lotSize stepSize) =>
        toFixedVal quantityPrecision ((⌊value / stepSize⌋ : ℚ) * stepSize)
    | some (ExchangeFilter.minNotionalF _) => value

/-- A successful response of binanceAPIService.createOrder, carrying the
fields the executor reads. A call whose submission throws (network error
or exchange rejection) is modelled as none. -/
structure OrderResp where
  executedQty : ℚ
  cummulativeQuoteQty : ℚ
  deriving DecidableEq, Repr

/-- The value returned by a successful executeBuyOrder. -/
structure BuyFill where
  executedQty : ℚ
  avgPrice : ℚ
  deriving DecidableEq, Repr

/-- Observable outcome of one executeBuyOrder call: the returned value
(none models a null return), the orderInProgress flag after the call,
whether createOrder was invoked, and whether saveTrade was reached. -/
structure BuyExecState where
  result : Option BuyFill
  orderInProgress : Bool
  contactedExchange : Bool
  tradeRecorded : Bool
  deriving DecidableEq, Repr

/-- TradeExecutor.executeBuyOrder (lines 77-159). An in-progress flag
rejects immediately (flag untouched); otherwise the flag is set, the raw
quantity investment / price is floored to the LOT_SIZE step, a violated
MIN_NOTIONAL or insufficient quote balance rejects with the flag cleared,
and the order is submitted. A submission error is caught, logged and
returns null; the finally block clears the flag on every path that set
it. On success the trade is persisted (saveTrade catches its own errors)
and executedQty with avgPrice = cummulativeQuoteQty / executedQty is
returned. -/
def executeBuyOrder (orderInProgress : Bool) (symbolInfo : SymbolInfo) (pricePrecision quantityPrecision : ℕ) (investmentAmountUsdt currentPrice availableQuoteBalance : ℚ) (createOrderResp : Option OrderResp) : BuyExecState :=
  if orderInProgress then
    { result := none, orderInProgress := orderInProgress, contactedExchange := false, tradeRecorded := false }
  else
    let quantity := investmentAmountUsdt / currentPrice
    let quantity := applyExchangeFilter (some symbolInfo) pricePrecision quantityPrecision FilterType.LOT_SIZE quantity
    let minNotionalViolated :=
      match findFilter symbolInfo FilterType.MIN_NOTIONAL with
      | some (ExchangeFilter.minNotionalF m) => decide (quantity * currentPrice < m)
      | _ => false
    if minNotionalViolated then
      { result := none, orderInProgress := false, contactedExchange := false, tradeRecorded := false }
    else if availableQuoteBalance < investmentAmountUsdt then
      { result := none, orderInProgress := false, contactedExchange := false, tradeRecorded := false }
    else
      match createOrderResp with
      | none =>
        { result := none, orderInProgress := false, contactedExchange := true, tradeRecorded := false }
      | some order =>
        let executedQty := order.executedQty
        let avgPrice := order.cummulativeQuoteQty / executedQty
        { result := some { executedQty := executedQty, avgPrice := avgPrice },
          orderInProgress := false, contactedExchange := true, tradeRecorded := true }

/-- What the profit computation of executeSellOrder would need to read
from this.stateManager.position. -/
structure StoredPosition where
  entryPrice : ℚ
  deriving DecidableEq, Repr

/-- Models the property access this.stateManager.position. The
StateManager class (src/services/StateManager.js) assigns only config,
logger, botId, BotStateModel, TradeModel and botInstance; no statement in
the repository ever assigns a position property on a StateManager, so the
access evaluates to undefined — modelled as none. Reading entryPrice from
it throws a TypeError at run time. -/
def stateManagerPosition : Option StoredPosition := none

/-- The value returned by a successful executeSellOrder. -/
structure SellFill where
  executedQty : ℚ
  avgPrice : ℚ
  profitLoss : ℚ
  deriving DecidableEq, Repr

/-- Observable outcome of one executeSellOrder call, as for buys. -/
structure SellExecState where
  result : Option SellFill
  orderInProgress : Bool
  contactedExchange : Bool
  tradeRecorded : Bool
  deriving DecidableEq, Repr

/-- TradeExecutor.executeSellOrder (lines 170-265). An in-progress flag
rejects immediately; otherwise the flag is set, the position amount is
floored to the LOT_SIZE step, a violated MIN_NOTIONAL rejects, a quantity
above the available base balance is re-quantized down to that balance
(with a result of zero a hard rejection), and the order is submitted. A
submission error is caught and returns null, the finally block clearing
the flag. After a successful submission the code computes
avgPrice = cummulativeQuoteQty / executedQty and then reads
this.stateManager.position.entryPrice (line 223, passed here as
smPosition): when that position property is absent the read throws, the
catch block turns the call into a null return, and neither saveTrade nor
updateDailyStats is reached. The exit reason parameter only feeds logging
and the trade record, so it is not modelled. -/
def executeSellOrder (orderInProgress : Bool) (symbolInfo : SymbolInfo) (pricePrecision quantityPrecision : ℕ) (smPosition : Option StoredPosition) (positionAmount currentPrice availableBaseBalance : ℚ) (createOrderResp : Option OrderResp) : SellExecState :=
  if orderInProgress then
    { result := none, orderInProgress := orderInProgress, contactedExchange := false, tradeRecorded := false }
  else
    let quantityToSell := applyExchangeFilter (some symbolInfo) pricePrecision quantityPrecision FilterType.LOT_SIZE positionAmount
    let minNotionalViolated :=
      match findFilter symbolInfo FilterType.MIN_NOTIONAL with
      | some (ExchangeFilter.minNotionalF m) => decide (quantityToSell * currentPrice < m)
      | _ => false
    if minNotionalViolated then
      { result := none, orderInProgress := false, contactedExchange := false, tradeRecorded := false }
    else
      let adjusted : Option ℚ :=
        if availableBaseBalance < quantityToSell then
          let q2 := applyExchangeFilter (some symbolInfo) pricePrecision quantityPrecision FilterType.LOT_SIZE availableBaseBalance
          if q2 = 0 then none else some q2
        else some quantityToSell
      match adjusted with
      | none =>
        { result := none, orderInProgress := false, contactedExchange := false, tradeRecorded := false }
      | some _ =>
        match createOrderResp with
        | none =>
          { result := none, orderInProgress := false, contactedExchange := true, tradeRecorded := false }
        | some order =>
          let executedQty := order.executedQty
          let avgPrice := order.cummulativeQuoteQty / executedQty
          match smPosition with
          | none =>
            { result := none, orderInProgress := false, contactedExchange := true, tradeRecorded := false }
          | some sp =>
            let profitLoss := (avgPrice - sp.entryPrice) * executedQty
            { result := some { executedQty := executedQty, avgPrice := avgPrice, profitLoss := profitLoss },
              orderInProgress := false, contactedExchange := true, tradeRecorded := true }

/-! ## ErrorHandler (src/utils/ErrorHandler.js) -/

/-- Outcome of handleCriticalError: the error is always logged; the
process is terminated with process.exit(1) exactly when shouldExit holds. -/
structure CriticalOutcome where
  logged : Bool
  processExited : Bool
  deriving DecidableEq, Repr

/-- handleCriticalError (lines 20-49): logs the error, optionally
notifies, and when shouldExit is set (its declared default is true) calls
process.exit(1). -/
def handleCriticalError (shouldExit : Bool) : CriticalOutcome :=
  { logged := true, processExited := shouldExit }

/-! ## StateManager day rollover (src/services/StateManager.js) -/

/-- The day-rollover block of StateManager.loadState (lines 132-148),
acting on the persisted dailyStats given the current calendar date. When
the stored start date differs from the current date by day, month or
year, the persisted profit is pushed to dailyProfits — but only when it
is nonzero (line 138) — trades and profit are reset, startTime is set to
now, and saveState is called immediately (the returned flag). Otherwise
the stats are untouched and no save is issued from this block. -/
def loadStateRollover (now : CalDate) (ds : DailyStats) : DailyStats × Bool :=
  if now.day ≠ ds.startTime.day ∨ now.month ≠ ds.startTime.month ∨ now.year ≠ ds.startTime.year then
    let dailyProfits :=
      if ds.profit ≠ 0 then ds.dailyProfits ++ [(ds.startTime, ds.profit)]
      else ds.dailyProfits
    ({ trades := 0, profit := 0, startTime := now, dailyProfits := dailyProfits }, true)
  else (ds, false)

/-! ## Orchestrator (src/core/BinanceTradingBot.js, processNewPrice) -/

/-- The bot's position object: {holding, amount} (the asset name fields
do not influence control flow). -/
structure Position where
  holding : Bool
  amount : ℚ
  deriving DecidableEq, Repr

/-- The strategy and risk configuration read inside processNewPrice. The
risk fields are the two environment limits of the RiskManager and the
initialCapital fallback it uses. -/
structure StrategyConfig where
  investmentAmount : ℚ
  stopLossPercentage : ℚ
  takeProfitPercentage : ℚ
  trailingStopPercentage : ℚ
  pricePrecision : ℕ
  quantityPrecision : ℕ
  maxDailyLossPercentage : ℚ
  maxDailyTrades : ℕ
  initialCapital : ℚ
  deriving DecidableEq, Repr

/-- Mutable bot state touched by processNewPrice. The balance fields
model this.accountBalances[asset] and this.accountBalances[quoteAsset]:
none models a missing key, in which case reading its free property throws
a TypeError that the surrounding catch receives. -/
structure BotState where
  position : Position
  entryPrice : ℚ
  highestPrice : ℚ
  lastPrice : ℚ
  dailyStats : DailyStats
  sp : SignalProcessorState
  orderInProgress : Bool
  baseBalanceFree : Option ℚ
  quoteBalanceFree : Option ℚ
  deriving DecidableEq, Repr

/-- Observable record of one processNewPrice call: the signal returned by
step 1, the highestPrice argument handed to checkExitConditions, the exit
action, the executor call outcomes, and the critical-error outcome when
an exception reached the catch block (none when no exception was
raised). -/
structure TickTrace where
  signal : Option Signal
  exitCheckHighest : ℚ
  exitAction : Option ExitReason
  sellCall : Option SellExecState
  buyCall : Option BuyExecState
  critical : Option CriticalOutcome
  deriving DecidableEq, Repr

/-- BinanceTradingBot.processNewPrice (lines 118-202), for an initialized
bot. Steps, in source order: record lastPrice; (1) feed the price to the
signal processor; (2) evaluate exit conditions with the CURRENT state's
highestPrice; on a non-null exit action read the base balance (a missing
key throws), call executeSellOrder, apply the executor's internal
updateDailyStats effect on success, then unconditionally clear
position.holding, position.amount, entryPrice and highestPrice and save
state (saveState catches its own errors); (3) when not holding and the
signal is BUY and the daily risk limits allow, read the quote balance (a
missing key throws) and call executeBuyOrder; only a non-null result sets
the position fields and increments the daily trade count; (4) finally,
when holding and the new price exceeds highestPrice, update
highestPrice. Any exception raised in 1-4 is caught at lines 198-201 and
passed to handleCriticalError with its shouldExit parameter left at the
default true. -/
def processNewPrice (cfg : StrategyConfig) (symbolInfo : SymbolInfo) (st0 : BotState) (price : ℚ) (sellResp buyResp : Option OrderResp) : BotState × TickTrace :=
  let st := { st0 with lastPrice := price }
  let pr := processPrice st.sp price
  let st := { st with sp := pr.1 }
  let signal := pr.2
  let exitCheckHighest := st.highestPrice
  let exitAction := checkExitConditions st.position.holding st.entryPrice st.highestPrice st.lastPrice cfg.stopLossPercentage cfg.takeProfitPercentage cfg.trailingStopPercentage
  let exitOut : BotState × Option SellExecState × Option CriticalOutcome :=
    match exitAction with
    | none => (st, none, none)
    | some _ =>
      match st.baseBalanceFree with
      | none => (st, none, some (handleCriticalError true))
      | some baseFree =>
        let sres := executeSellOrder st.orderInProgress symbolInfo cfg.pricePrecision cfg.quantityPrecision stateManagerPosition st.position.amount st.lastPrice baseFree sellResp
        let stats :=
          match sres.result with
          | some fill => { st.dailyStats with profit := st.dailyStats.profit + fill.profitLoss, trades := st.dailyStats.trades + 1 }
          | none => st.dailyStats
        ({ st with orderInProgress := sres.orderInProgress,
                   dailyStats := stats,
                   position := { holding := false, amount := 0 },
                   entryPrice := 0, highestPrice := 0 }, some sres, none)
  match exitOut with
  | (st, sellCall, some crit) =>
    (st, { signal := signal, exitCheckHighest := exitCheckHighest, exitAction := exitAction,
           sellCall := sellCall, buyCall := none, critical := some crit })
  | (st, sellCall, none) =>
    let buyOut : BotState × Option BuyExecState × Option CriticalOutcome :=
      if st.position.holding = false ∧ signal = some Signal.BUY then
        if checkDailyRiskLimits cfg.maxDailyLossPercentage cfg.maxDailyTrades cfg.initialCapital st.dailyStats then
          match st.quoteBalanceFree with
          | none => (st, none, some (handleCriticalError true))
          | some quoteFree =>
            let bres := executeBuyOrder st.orderInProgress symbolInfo cfg.pricePrecision cfg.quantityPrecision cfg.investmentAmount st.lastPrice quoteFree buyResp
            let st := { st with orderInProgress := bres.orderInProgress }
            match bres.result with
            | some fill =>
              ({ st with position := { holding := true, amount := fill.executedQty },
                         entryPrice := fill.avgPrice, highestPrice := fill.avgPrice,
                         dailyStats := { st.dailyStats with trades := st.dailyStats.trades + 1 } }, some bres, none)
            | none => (st, some bres, none)
        else (st, none, none)
      else (st, none, none)
    match buyOut with
    | (st, buyCall, some crit) =>
      (st, { signal := signal, exitCheckHighest := exitCheckHighest, exitAction := exitAction,
             sellCall := sellCall, buyCall := buyCall, critical := some crit })
    | (st, buyCall, none) =>
      let st := if st.position.holding ∧ st.lastPrice > st.highestPrice then { st with highestPrice := st.lastPrice } else st
      (st, { signal := signal, exitCheckHighest := exitCheckHighest, exitAction := exitAction,
             sellCall := sellCall, buyCall := buyCall, critical := none })

/-! ## Claim-side reference definitions and concrete fixtures -/

/-- The exponential average exactly as the claim words it: the seed is
the simple average of the FIRST period prices, and the EMA recurrence is
then applied to the subsequent prices (those after the first period). -/
def emaSeededFromFirstAverage (data : List ℚ) (period : ℕ) : ℚ :=
  let k : ℚ := 2 / ((period : ℚ) + 1)
  (data.drop period).foldl (fun ema p => p * k + ema * (1 - k)) ((data.take period).foldl (fun sum val => sum + val) 0 / (period : ℚ))

/-- The exponential average the source actually computes, phrased
independently of calculateEMA: the seed is the simple average of the LAST
period prices (the reversed list's first period entries), and the
recurrence is applied to every price after the first. -/
def emaSeededFromTrailingAverage (data : List ℚ) (period : ℕ) : ℚ :=
  let k : ℚ := 2 / ((period : ℚ) + 1)
  (data.drop 1).foldl (fun ema p => p * k + ema * (1 - k)) ((data.reverse.take period).foldl (fun sum val => sum + val) 0 / (period : ℚ))

/-- The configuration defaults of src/config/ConfigManager.js: investment
10 USDT, stop loss 1%, take profit 2%, trailing stop 0.5%, price
precision 2, quantity precision 5, and the RiskManager environment
defaults (5% max daily loss, 5 trades, 1000 initial capital). -/
def defaultStrategyConfig : StrategyConfig :=
  { investmentAmount := 10, stopLossPercentage := 1/100, takeProfitPercentage := 2/100,
    trailingStopPercentage := 5/1000, pricePrecision := 2, quantityPrecision := 5,
    maxDailyLossPercentage := 5/100, maxDailyTrades := 5, initialCapital := 1000 }

/-- The default configuration with the take-profit threshold raised to
200%, so that a moderate rally triggers no exit. -/
def highTakeProfitConfig : StrategyConfig :=
  { defaultStrategyConfig with takeProfitPercentage := 2 }

/-- A symbolInfo with a step size of 0.001 and a minimum notional of 10,
typical exchange values. -/
def sampleSymbolInfo : SymbolInfo :=
  { filters := [ExchangeFilter.lotSize (1/1000), ExchangeFilter.minNotionalF 10] }

def sampleDay : CalDate := { year := 2024, month := 4, day := 9 }

/-- A bot holding half a unit bought at 100, with the default moving
average windows (10 and 30), no order in flight, and both account
balances present. -/
def holdingBotState : BotState :=
  { position := { holding := true, amount := 1/2 },
    entryPrice := 100, highestPrice := 100, lastPrice := 100,
    dailyStats := { trades := 0, profit := 0, startTime := sampleDay, dailyProfits := [] },
    sp := initialSignalProcessorState 10 30,
    orderInProgress := false,
    baseBalanceFree := some 1, quoteBalanceFree := some 100 }

/-- The same holding bot after this.accountBalances has lost the base
asset key (for example, restored from a persisted state saved under a
different symbol), so that accountBalances[asset].free throws. -/
def holdingBotStateNoBaseBalance : BotState :=
  { holdingBotState with baseBalanceFree := none }

/-! ## Theorems -/

/-- C8: checkExitConditions returns none when not holding, and otherwise
evaluates STOP_LOSS (pnl at most the negative stop-loss threshold), then
TAKE_PROFIT, then TRAILING_STOP (highest above entry and price at most
highest times one minus the trailing fraction), first match winning: it
coincides with the specification's rule once the configured positive
stop-loss fraction is negated into the spec's threshold. With entry 100
and a two percent stop loss, price 97.9 triggers STOP_LOSS and price 98.1
triggers nothing. -/
theorem checkExitConditions_ordered_evaluation :
    (∀ (holding : Bool) (e hp c sl tp tr : ℚ),
        checkExitConditions holding e hp c sl tp tr = checkExitSpec holding e hp c (-sl) tp tr)
    ∧ checkExitConditions true 100 100 (979/10) (2/100) (4/100) (1/100) = some ExitReason.STOP_LOSS
    ∧ checkExitConditions true 100 100 (981/10) (2/100) (4/100) (1/100) = none := by
  refine ⟨?_, by norm_num [checkExitConditions], by norm_num [checkExitConditions]⟩
  intro holding e hp c sl tp tr
  cases holding with
  | false => rfl
  | true =>
    simp only [checkExitConditions, checkExitSpec]
    norm_num
    split_ifs with h1 h2 h3 h4 <;> first | rfl | tauto

/-- C10: the LOT_SIZE quantization of applyExchangeFilter equals
floor(value / stepSize) * stepSize rounded to the configured quantity
display precision, for every value and positive step size carried by the
symbol's LOT_SIZE filter; with a step size of 0.001, 1.23456 maps to
1.234 and 0.0009 maps to 0. -/
theorem applyExchangeFilter_lot_size_floors :
    (∀ (info : SymbolInfo) (pricePrecision quantityPrecision : ℕ) (stepSize value : ℚ),
        0 < stepSize →
        findFilter info FilterType.LOT_SIZE = some (ExchangeFilter.lotSize stepSize) →
        applyExchangeFilter (some info) pricePrecision quantityPrecision FilterType.LOT_SIZE value
          = toFixedVal quantityPrecision ((⌊value / stepSize⌋ : ℚ) * stepSize))
    ∧ applyExchangeFilter (some sampleSymbolInfo) 2 5 FilterType.LOT_SIZE (123456/100000) = 1234/1000
    ∧ applyExchangeFilter (some sampleSymbolInfo) 2 5 FilterType.LOT_SIZE (9/10000) = 0 := by
  refine ⟨?_,
    by norm_num [applyExchangeFilter, findFilter, List.find?, filterTypeOf, sampleSymbolInfo, toFixedVal],
    by norm_num [applyExchangeFilter, findFilter, List.find?, filterTypeOf, sampleSymbolInfo, toFixedVal]⟩
  intro info pp qp stepSize value _ hfind
  simp only [applyExchangeFilter, hfind]

theorem applyExchangeFilter_lot_size_floors_witness :
    (0 : ℚ) < 1/1000 ∧
    applyExchangeFilter (some sampleSymbolInfo) 2 5 FilterType.LOT_SIZE (123456/100000)
      = toFixedVal 5 ((⌊((123456:ℚ)/100000) / (1/1000)⌋ : ℚ) * (1/1000)) :=
  ⟨by norm_num,
   applyExchangeFilter_lot_size_floors.1 sampleSymbolInfo 2 5 (1/1000) (123456/100000) (by norm_num)
     (by norm_num [findFilter, List.find?, sampleSymbolInfo, filterTypeOf])⟩

/-- C5 counterexample: the Signal Engine's calculateEMA is NOT the
exponential average seeded with the simple average of the first period
prices: on the price sequence 1, 2, 3 with period 2 the source computes
49/18 while the claimed seeding yields 5/2. -/
theorem calculateEMA_not_seeded_from_first_average :
    calculateEMA [1, 2, 3] 2 ≠ emaSeededFromFirstAverage [1, 2, 3] 2 := by
  norm_num [calculateEMA, emaSeededFromFirstAverage]

/-- C5 amended: whenever at least period prices are buffered, the
source's calculateEMA seeds from the simple average of the LAST period
prices and then applies the EMA recurrence to every price after the
first (re-traversing the whole buffer), rather than seeding from the
first-window average and folding only the subsequent prices. -/
theorem calculateEMA_trailing_average_seed (data : List ℚ) (period : ℕ) (h : period ≤ data.length) :
    calculateEMA data period = emaSeededFromTrailingAverage data period := by
  have hnot : ¬(data.length < period) := not_lt.mpr h
  simp only [calculateEMA, emaSeededFromTrailingAverage, if_neg hnot]
  have hdrop : (data.reverse.take period).reverse = data.drop (data.length - period) := by
    rw [List.reverse_take]
    simp
  have hfold : ∀ (l : List ℚ), l.foldl (fun sum val => sum + val) 0 = l.sum := by
    intro l
    rw [List.sum_eq_foldl]
  rw [hfold, hfold, ← hdrop, List.sum_reverse]

theorem calculateEMA_trailing_average_seed_witness :
    calculateEMA [1, 2, 3] 2 = emaSeededFromTrailingAverage [1, 2, 3] 2 :=
  calculateEMA_trailing_average_seed [1, 2, 3] 2 (by norm_num)

/-- C4: reading this.stateManager.position.entryPrice throws on every
successful sell submission (the StateManager has no position property),
so the executor returns null with no trade recorded even though the
exchange order went through: selling 0.5 at price 100 with a confirmed
fill of 0.5 for 50 USDT yields no fill result and no recorded trade. -/
theorem executeSellOrder_crashes_profit_computation :
    executeSellOrder false sampleSymbolInfo 2 5 stateManagerPosition (1/2) 100 1
        (some { executedQty := 1/2, cummulativeQuoteQty := 50 })
      = { result := none, orderInProgress := false, contactedExchange := true, tradeRecorded := false } := by
  have hmin : findFilter sampleSymbolInfo FilterType.MIN_NOTIONAL = some (ExchangeFilter.minNotionalF 10) := rfl
  have hlot : findFilter sampleSymbolInfo FilterType.LOT_SIZE = some (ExchangeFilter.lotSize (1/1000)) := rfl
  simp only [executeSellOrder, applyExchangeFilter, hmin, hlot, toFixedVal, stateManagerPosition]
  norm_num

/-- C7 counterexample: loading after a day change with a persisted profit
of exactly 0 archives nothing: the historical list stays empty instead of
receiving the day's (zero) profit entry, so the rollover does not always
archive the persisted day's profit. -/
theorem loadStateRollover_zero_profit_not_archived :
    (loadStateRollover { year := 2024, month := 4, day := 10 }
        { trades := 3, profit := 0, startTime := sampleDay, dailyProfits := [] }).1.dailyProfits
      ≠ [(sampleDay, (0 : ℚ))] := by
  simp [loadStateRollover, sampleDay]

/-- C7 amended: on a load whose stored start date differs from the
current calendar date, the rollover resets the trade count to 0 and the
profit to 0, sets the start timestamp to the current date, persists
immediately, and archives the previous day's profit exactly when that
profit is nonzero (a zero-profit day gets no archive entry); re-running
the load on the resulting state the same day changes nothing, so the
rollover happens exactly once per day change. -/
theorem loadStateRollover_day_change_resets (now : CalDate) (ds : DailyStats)
    (h : now.day ≠ ds.startTime.day ∨ now.month ≠ ds.startTime.month ∨ now.year ≠ ds.startTime.year) :
    (loadStateRollover now ds).1.trades = 0 ∧
    (loadStateRollover now ds).1.profit = 0 ∧
    (loadStateRollover now ds).1.startTime = now ∧
    (loadStateRollover now ds).2 = true ∧
    (loadStateRollover now ds).1.dailyProfits =
      (if ds.profit ≠ 0 then ds.dailyProfits ++ [(ds.startTime, ds.profit)] else ds.dailyProfits) ∧
    loadStateRollover now (loadStateRollover now ds).1 = ((loadStateRollover now ds).1, false) := by
  simp only [loadStateRollover, if_pos h]
  refine ⟨trivial, trivial, trivial, trivial, trivial, ?_⟩
  simp

theorem loadStateRollover_day_change_resets_witness :
    (loadStateRollover { year := 2024, month := 4, day := 10 }
        { trades := 2, profit := 5, startTime := sampleDay, dailyProfits := [] }).1.trades = 0 ∧
    (loadStateRollover { year := 2024, month := 4, day := 10 }
        { trades := 2, profit := 5, startTime := sampleDay, dailyProfits := [] }).1.startTime
      = { year := 2024, month := 4, day := 10 } :=
  ⟨(loadStateRollover_day_change_resets _ _ (by simp [sampleDay])).1,
   (loadStateRollover_day_change_resets _ _ (by simp [sampleDay])).2.2.1⟩

/-- A price fed while fewer than longMASize prices are buffered leaves
the moving-average arrays empty and yields no signal. -/
theorem processPrice_small (s : SignalProcessorState) (p : ℚ) (h : s.prices.length + 1 < s.longMASize) :
    processPrice s p = ({ s with prices := s.prices ++ [p], shortMA := [], longMA := [] }, none) := by
  have h1 : ¬ ((s.prices ++ [p]).length > s.longMASize * 2) := by
    simp only [List.length_append, List.length_cons, List.length_nil]
    omega
  have h2 : (s.prices ++ [p]).length < s.longMASize := by
    simp only [List.length_append, List.length_cons, List.length_nil]
    omega
  simp only [processPrice, if_neg h1, calculateMovingAverages]
  rw [if_pos (by simpa using h2)]
  simp [checkSignal]

/-- While the buffered and fed prices together stay below longMASize,
every observation yields none. -/
theorem feedPrices_all_none (ps : List ℚ) : ∀ (s : SignalProcessorState),
    s.prices.length + ps.length < s.longMASize →
    (feedPrices s ps).2 = List.replicate ps.length none := by
  induction ps with
  | nil => intro s _; rfl
  | cons p rest ih =>
    intro s h
    have hs : s.prices.length + 1 < s.longMASize := by
      simp only [List.length_cons] at h; omega
    simp only [feedPrices, processPrice_small s p hs, List.length_cons, List.replicate_succ]
    refine congrArg (List.cons none) ?_
    refine ih _ ?_
    simp only [List.length_append, List.length_cons, List.length_nil]
    simp only [List.length_cons] at h
    omega

/-- Feeding a concatenation feeds the two parts in sequence; in
particular the signals of a prefix do not depend on later prices. -/
theorem feedPrices_append (ps qs : List ℚ) : ∀ (s : SignalProcessorState),
    feedPrices s (ps ++ qs)
      = ((feedPrices (feedPrices s ps).1 qs).1,
         (feedPrices s ps).2 ++ (feedPrices (feedPrices s ps).1 qs).2) := by
  induction ps with
  | nil => intro s; simp [feedPrices]
  | cons p rest ih =>
    intro s
    simp only [List.cons_append, feedPrices, List.append_eq, ih]

/-- C9: for every configuration with shortPeriod below longPeriod and
every price sequence, the signal processor emits only none from the
observations made before longPeriod prices have been fed in total: on
any sequence splitting as ps followed by qs with ps shorter than
longPeriod, the first ps-many outputs are all none. -/
theorem signalProcessor_no_signal_before_longPeriod (shortPeriod longPeriod : ℕ)
    (_hlt : shortPeriod < longPeriod) (ps qs : List ℚ) (hps : ps.length < longPeriod) :
    ((feedPrices (initialSignalProcessorState shortPeriod longPeriod) (ps ++ qs)).2).take ps.length
      = List.replicate ps.length none := by
  have hnone : (feedPrices (initialSignalProcessorState shortPeriod longPeriod) ps).2
      = List.replicate ps.length none :=
    feedPrices_all_none ps _ (by simpa [initialSignalProcessorState] using hps)
  rw [feedPrices_append]
  rw [show ((feedPrices (feedPrices (initialSignalProcessorState shortPeriod longPeriod) ps).1 qs).1,
        (feedPrices (initialSignalProcessorState shortPeriod longPeriod) ps).2 ++
        (feedPrices (feedPrices (initialSignalProcessorState shortPeriod longPeriod) ps).1 qs).2).2
      = (feedPrices (initialSignalProcessorState shortPeriod longPeriod) ps).2 ++
        (feedPrices (feedPrices (initialSignalProcessorState shortPeriod longPeriod) ps).1 qs).2 from rfl]
  rw [hnone, List.take_left' (by simp)]

theorem signalProcessor_no_signal_before_longPeriod_witness :
    ((feedPrices (initialSignalProcessorState 2 3) ([1, 2] ++ [4])).2).take ([(1 : ℚ), 2].length)
      = List.replicate ([(1 : ℚ), 2].length) none :=
  signalProcessor_no_signal_before_longPeriod 2 3 (by norm_num) [1, 2] [4] (by norm_num)

/-- C6: a buy or sell call made while the in-flight flag is already set
returns null immediately, leaves the flag set and never contacts the
exchange; and a call that finds the flag clear leaves it clear again on
every exit path (success, rejection or error). -/
theorem single_flight_flag_discipline :
    ∀ (symbolInfo : SymbolInfo) (pp qp : ℕ) (smPosition : Option StoredPosition)
      (a b c d e f : ℚ) (buyResp sellResp : Option OrderResp),
      executeBuyOrder true symbolInfo pp qp a b c buyResp
        = { result := none, orderInProgress := true, contactedExchange := false, tradeRecorded := false } ∧
      executeSellOrder true symbolInfo pp qp smPosition d e f sellResp
        = { result := none, orderInProgress := true, contactedExchange := false, tradeRecorded := false } ∧
      (executeBuyOrder false symbolInfo pp qp a b c buyResp).orderInProgress = false ∧
      (executeSellOrder false symbolInfo pp qp smPosition d e f sellResp).orderInProgress = false := by
  intro symbolInfo pp qp smPosition a b c d e f buyResp sellResp
  refine ⟨rfl, rfl, ?_, ?_⟩
  · simp only [executeBuyOrder, Bool.false_eq_true, if_false]
    repeat' first
    | rfl
    | split
  · simp only [executeSellOrder, Bool.false_eq_true, if_false]
    repeat' first
    | rfl
    | split

/-- C2 amended: every exception raised during steps 1 to 4 of a price
event is caught at the end of processNewPrice and routed to
handleCriticalError, which logs it — but the call leaves shouldExit at
its default of true, so the handler then terminates the process with
exit code 1 and the next price event is never processed: every tick
either completes without a critical outcome or ends in the
logged-and-exited outcome. -/
theorem processNewPrice_errors_caught_logged_then_exit (cfg : StrategyConfig) (si : SymbolInfo)
    (st : BotState) (price : ℚ) (sellResp buyResp : Option OrderResp) :
    (processNewPrice cfg si st price sellResp buyResp).2.critical = none ∨
    (processNewPrice cfg si st price sellResp buyResp).2.critical = some (handleCriticalError true) := by
  simp only [processNewPrice]
  split
  · rename_i st1 sellCall crit heq
    right
    repeat' split at heq
    all_goals simp_all [handleCriticalError]
  · rename_i st1 sellCall heq
    split
    · rename_i st2 buyCall crit heq2
      right
      repeat' split at heq2
      all_goals simp_all [handleCriticalError]
    · left
      rfl

/-- C2 counterexample: a concrete price event whose processing raises an
exception (the stop loss fires while accountBalances is missing the base
asset key, so reading its free property throws) ends with the process
terminated: the critical outcome is logged with processExited true,
refuting the claim that the engine remains able to process the next
price event. -/
theorem processNewPrice_error_terminates_process_at_input :
    (processNewPrice defaultStrategyConfig sampleSymbolInfo holdingBotStateNoBaseBalance 97 none none).2.critical
      = some { logged := true, processExited := true } := by
  norm_num [processNewPrice, defaultStrategyConfig, holdingBotStateNoBaseBalance, holdingBotState,
    initialSignalProcessorState, processPrice, calculateMovingAverages, checkSignal,
    checkExitConditions, handleCriticalError]

/-- C1: on a price event whose stop loss fires, when the sell submission
fails (the exchange call throws, so the executor returns null with no
fill), the orchestrator nevertheless clears every position field:
starting from a held position of 0.5 bought at 100, a tick at 97 leaves
a failed sell call and yet ends with holding false, amount 0, entryPrice
0 and highestPrice 0, contradicting the claim that the position state is
left unchanged unless the sell returns success. -/
theorem processNewPrice_clears_position_despite_failed_sell :
    holdingBotState.position.holding = true ∧
    (processNewPrice defaultStrategyConfig sampleSymbolInfo holdingBotState 97 none none).2.sellCall
        = some { result := none, orderInProgress := false, contactedExchange := true, tradeRecorded := false } ∧
    (processNewPrice defaultStrategyConfig sampleSymbolInfo holdingBotState 97 none none).1.position
        = { holding := false, amount := 0 } ∧
    (processNewPrice defaultStrategyConfig sampleSymbolInfo holdingBotState 97 none none).1.entryPrice = 0 ∧
    (processNewPrice defaultStrategyConfig sampleSymbolInfo holdingBotState 97 none none).1.highestPrice = 0 := by
  have hmin : findFilter sampleSymbolInfo FilterType.MIN_NOTIONAL = some (ExchangeFilter.minNotionalF 10) := rfl
  have hlot : findFilter sampleSymbolInfo FilterType.LOT_SIZE = some (ExchangeFilter.lotSize (1/1000)) := rfl
  refine ⟨rfl, ?_⟩
  norm_num [processNewPrice, defaultStrategyConfig, holdingBotState, initialSignalProcessorState,
    processPrice, calculateMovingAverages, checkSignal, checkExitConditions, executeSellOrder,
    applyExchangeFilter, hmin, hlot, toFixedVal, stateManagerPosition, handleCriticalError]
  simp +decide

/-- C3 counterexample: on a tick at 110 from a held position whose
stored highestPrice is 100 (and with thresholds so that no exit fires),
the exit check receives the PRE-update highestPrice 100 rather than the
new price 110, while the stored highestPrice becomes 110 only at step 4
after the exit evaluation — refuting the claim that highestPrice is
updated before exit conditions are evaluated. -/
theorem exit_check_receives_stale_highest_at_input :
    (processNewPrice highTakeProfitConfig sampleSymbolInfo holdingBotState 110 none none).2.exitCheckHighest = 100 ∧
    (processNewPrice highTakeProfitConfig sampleSymbolInfo holdingBotState 110 none none).1.highestPrice = 110 ∧
    (100 : ℚ) ≠ 110 := by
  have hmin : findFilter sampleSymbolInfo FilterType.MIN_NOTIONAL = some (ExchangeFilter.minNotionalF 10) := rfl
  have hlot : findFilter sampleSymbolInfo FilterType.LOT_SIZE = some (ExchangeFilter.lotSize (1/1000)) := rfl
  norm_num [processNewPrice, highTakeProfitConfig, defaultStrategyConfig, holdingBotState,
    initialSignalProcessorState, processPrice, calculateMovingAverages, checkSignal,
    checkExitConditions, executeSellOrder, applyExchangeFilter, hmin, hlot, toFixedVal,
    stateManagerPosition, handleCriticalError]

/-- C3 amended: the tick's exit evaluation always receives the pre-tick
highestPrice, and highestPrice is raised to a higher new price only in
step 4 after exit and entry processing; nevertheless the same tick's
exit decision is unchanged by the deferred update, because with a
positive trailing fraction a price strictly above the stored (nonnegative)
highestPrice can satisfy the trailing-stop condition under neither the
old nor the updated highest; and when no exit fires the stored
highestPrice does equal the new price by the end of the tick. -/
theorem highest_update_after_exit_check_same_decision (cfg : StrategyConfig) (si : SymbolInfo)
    (st : BotState) (price : ℚ) (sr br : Option OrderResp)
    (hhold : st.position.holding = true)
    (hmax : st.highestPrice < price)
    (hnn : 0 ≤ st.highestPrice)
    (htr : 0 < cfg.trailingStopPercentage) :
    (processNewPrice cfg si st price sr br).2.exitCheckHighest = st.highestPrice ∧
    checkExitConditions st.position.holding st.entryPrice st.highestPrice price
        cfg.stopLossPercentage cfg.takeProfitPercentage cfg.trailingStopPercentage
      = checkExitConditions st.position.holding st.entryPrice price price
        cfg.stopLossPercentage cfg.takeProfitPercentage cfg.trailingStopPercentage ∧
    (checkExitConditions st.position.holding st.entryPrice st.highestPrice price
        cfg.stopLossPercentage cfg.takeProfitPercentage cfg.trailingStopPercentage = none →
      (processNewPrice cfg si st price sr br).1.highestPrice = price) := by
  refine ⟨?_, ?_, ?_⟩
  · simp only [processNewPrice]
    repeat' first
    | rfl
    | split
  · rw [hhold]
    simp only [checkExitConditions]
    norm_num
    have hA : ¬(price ≤ st.highestPrice * (1 - cfg.trailingStopPercentage) ∧ st.entryPrice < st.highestPrice) := by
      rintro ⟨hc, -⟩
      nlinarith [mul_nonneg hnn htr.le]
    have hB : ¬(price ≤ price * (1 - cfg.trailingStopPercentage) ∧ st.entryPrice < price) := by
      rintro ⟨hc, -⟩
      nlinarith [mul_pos (hnn.trans_lt hmax) htr]
    rw [if_neg hA, if_neg hB]
  · intro hexit
    rw [hhold] at hexit
    simp only [processNewPrice, hhold, hexit, Bool.true_eq_false, false_and, if_false,
      eq_self_iff_true, true_and]
    rw [if_pos hmax]

theorem highest_update_after_exit_check_same_decision_witness :
    (processNewPrice highTakeProfitConfig sampleSymbolInfo holdingBotState 110 none none).2.exitCheckHighest
      = holdingBotState.highestPrice :=
  (highest_update_after_exit_check_same_decision highTakeProfitConfig sampleSymbolInfo holdingBotState
    110 none none rfl (by norm_num [holdingBotState]) (by norm_num [holdingBotState])
    (by norm_num [highTakeProfitConfig, defaultStrategyConfig])).1

end TradingBot
